import Mathlib

/-!
Verification of the basix element-construction contract.

The repository ships the Python test suite (`test/test_create.py`) and build
metadata; the construction engine itself (cell-topology registry, family
strategies, dual-matrix solver, orchestrator) is not part of the sources
available here.  Following the specification document, the engine is modelled
below as a pure staged pipeline: every definition whose doc comment starts
with `Modelled from the spec:` reconstructs a missing component from the
specification's words (sections 3-7 of the spec).  The enumerations and the
tested grid are taken from `test/test_create.py`.
-/

namespace Basix

/-- Modelled from the spec: the `CellType` enumeration
{point, interval, triangle, quadrilateral, tetrahedron, hexahedron, prism,
pyramid}; the member set is confirmed by `test_all_cells_included`. -/
inductive CellType where
  | point
  | interval
  | triangle
  | quadrilateral
  | tetrahedron
  | hexahedron
  | prism
  | pyramid
deriving DecidableEq, Fintype, Repr

/-- Modelled from the spec: the `ElementFamily` enumeration
{P, RT, BDM, N1E, N2E, Regge, HHJ, bubble, serendipity, DPC, CR, Hermite,
iso, custom}; the member set is confirmed by `test_all_elements_included`. -/
inductive ElementFamily where
  | P
  | RT
  | BDM
  | N1E
  | N2E
  | Regge
  | HHJ
  | bubble
  | serendipity
  | DPC
  | CR
  | Hermite
  | iso
  | custom
deriving DecidableEq, Fintype, Repr

/-- Modelled from the spec: the `LagrangeVariant` enumeration, restricted to
the members the test grid exercises plus `unset`. -/
inductive LagrangeVariant where
  | unset
  | gll_isaac
  | gll_warped
  | legendre
  | bernstein
deriving DecidableEq, Fintype, Repr

/-- Modelled from the spec: the `DPCVariant` enumeration, restricted to the
members the test grid exercises plus `unset`. -/
inductive DPCVariant where
  | unset
  | diagonal_gll
  | legendre
deriving DecidableEq, Fintype, Repr

/-- Underlying integer tag of each `CellType` member (enumeration order). -/
def CellType.toNat : CellType → Nat
  | .point => 0
  | .interval => 1
  | .triangle => 2
  | .quadrilateral => 3
  | .tetrahedron => 4
  | .hexahedron => 5
  | .prism => 6
  | .pyramid => 7

/-- Underlying integer tag of each `ElementFamily` member (enumeration order). -/
def ElementFamily.toNat : ElementFamily → Nat
  | .P => 0
  | .RT => 1
  | .BDM => 2
  | .N1E => 3
  | .N2E => 4
  | .Regge => 5
  | .HHJ => 6
  | .bubble => 7
  | .serendipity => 8
  | .DPC => 9
  | .CR => 10
  | .Hermite => 11
  | .iso => 12
  | .custom => 13

/-- The Python attribute name of each `CellType` member. -/
def CellType.pyName : CellType → String
  | .point => "point"
  | .interval => "interval"
  | .triangle => "triangle"
  | .quadrilateral => "quadrilateral"
  | .tetrahedron => "tetrahedron"
  | .hexahedron => "hexahedron"
  | .prism => "prism"
  | .pyramid => "pyramid"

/-- The Python attribute name of each `ElementFamily` member. -/
def ElementFamily.pyName : ElementFamily → String
  | .P => "P"
  | .RT => "RT"
  | .BDM => "BDM"
  | .N1E => "N1E"
  | .N2E => "N2E"
  | .Regge => "Regge"
  | .HHJ => "HHJ"
  | .bubble => "bubble"
  | .serendipity => "serendipity"
  | .DPC => "DPC"
  | .CR => "CR"
  | .Hermite => "Hermite"
  | .iso => "iso"
  | .custom => "custom"

/-- Topological dimension of each reference cell (cell-topology registry). -/
def CellType.dim : CellType → Nat
  | .point => 0
  | .interval => 1
  | .triangle => 2
  | .quadrilateral => 2
  | .tetrahedron => 3
  | .hexahedron => 3
  | .prism => 3
  | .pyramid => 3

/-- Number of vertices of each reference cell (cell-topology registry). -/
def CellType.numVertices : CellType → Nat
  | .point => 1
  | .interval => 2
  | .triangle => 3
  | .quadrilateral => 4
  | .tetrahedron => 4
  | .hexahedron => 8
  | .prism => 6
  | .pyramid => 5

/-- Number of facets (codimension-1 sub-entities) of each reference cell. -/
def CellType.numFacets : CellType → Nat
  | .point => 0
  | .interval => 2
  | .triangle => 3
  | .quadrilateral => 4
  | .tetrahedron => 4
  | .hexahedron => 6
  | .prism => 5
  | .pyramid => 5

/-- A sub-entity of a reference cell: its topological dimension and its index
among the sub-entities of that dimension. -/
structure SubEntity where
  dim : Nat
  index : Nat
deriving DecidableEq, Repr

/-- The interior of a cell, as a sub-entity: the unique sub-entity of the
cell's own topological dimension. -/
def cellInterior (c : CellType) : SubEntity :=
  ⟨c.dim, 0⟩

/-- Modelled from the spec: the single error kind surfaced by the engine,
classified into the four-kind taxonomy of section 7, each value carrying a
human-readable message. -/
inductive BasixError where
  | invalidDegree (msg : String)
  | unsupportedCombination (msg : String)
  | incompatibleVariant (msg : String)
  | singularDualSystem (msg : String)
deriving DecidableEq, Repr

/-- The human-readable message carried by an error. -/
def BasixError.message : BasixError → String
  | .invalidDegree m => m
  | .unsupportedCombination m => m
  | .incompatibleVariant m => m
  | .singularDualSystem m => m

/-- Whether an error is the numerical-failure class (`SingularDualSystemError`). -/
def BasixError.isSingular : BasixError → Bool
  | .singularDualSystem _ => true
  | _ => false

/-- Whether the character list `s` starts with the character list `pat`. -/
def startsWithL : List Char → List Char → Bool
  | [], _ => true
  | _ :: _, [] => false
  | a :: as, b :: bs => a == b && startsWithL as bs

/-- Whether the character list `pat` occurs contiguously inside `s`. -/
def occursInL (pat : List Char) : List Char → Bool
  | [] => pat.isEmpty
  | c :: cs => startsWithL pat (c :: cs) || occursInL pat cs

/-- Whether the string `pat` occurs as a substring of `s`. -/
def strOccurs (pat s : String) : Bool :=
  occursInL pat.toList s.toList

/-- Modelled from the spec: the error raised when the `custom` family is
requested through `create_element`, which bypasses family strategies and
requires externally supplied data. -/
def errCustom : BasixError :=
  .unsupportedCombination "custom elements require explicitly supplied polynomial and functional data"

/-- Modelled from the spec: the error for a family requested on a cell outside
its structural domain. -/
def errUnsupportedCell : BasixError :=
  .unsupportedCombination "this element family is not defined on the requested cell"

/-- Modelled from the spec: the error for a degree below the family- and
cell-specific floor. -/
def errLowDegree : BasixError :=
  .invalidDegree "requested degree is below the minimum degree for this family and cell"

/-- Modelled from the spec: the error for a negative degree reaching the
polynomial space generator. -/
def errNegativeDegree : BasixError :=
  .invalidDegree "polynomial space degree must be non-negative"

/-- Modelled from the spec: the error for a singular dual system. -/
def errSingular : BasixError :=
  .singularDualSystem "the dual system is singular: no unique change-of-basis solution exists"

/-- Helper: the family is defined on the listed cells with the given
minimum degree. -/
def onCells (cs : List CellType) (m : Int) (c : CellType) : Option Int :=
  if c ∈ cs then some m else none

/-- Modelled from the spec: the per-family-per-cell minimum-degree table.
`none` means the family is structurally undefined on that cell (section 4.3);
the exact floors are the open question of section 9, encoded here as explicit
representative values (P: every cell, degree 0; facet-moment families:
degree 1, never on a point cell; bubble: cell-specific floors; Hermite:
degree 3; `custom` never goes through this table). -/
def ElementFamily.minDegree : ElementFamily → CellType → Option Int
  | .P, _ => some 0
  | .RT, c => onCells [.triangle, .quadrilateral, .tetrahedron, .hexahedron] 1 c
  | .BDM, c => onCells [.triangle, .quadrilateral, .tetrahedron, .hexahedron] 1 c
  | .N1E, c => onCells [.triangle, .quadrilateral, .tetrahedron, .hexahedron] 1 c
  | .N2E, c => onCells [.triangle, .quadrilateral, .tetrahedron, .hexahedron] 1 c
  | .Regge, c => onCells [.triangle, .tetrahedron] 0 c
  | .HHJ, c => onCells [.triangle, .tetrahedron] 0 c
  | .bubble, c =>
    match c with
    | .interval => some 2
    | .triangle => some 3
    | .tetrahedron => some 4
    | .quadrilateral => some 2
    | .hexahedron => some 2
    | _ => none
  | .serendipity, c => onCells [.interval, .quadrilateral, .hexahedron] 1 c
  | .DPC, c => onCells [.interval, .quadrilateral, .hexahedron] 0 c
  | .CR, c => onCells [.triangle, .tetrahedron] 1 c
  | .Hermite, c => onCells [.interval, .triangle, .tetrahedron] 3 c
  | .iso, c => onCells [.interval, .triangle, .quadrilateral, .tetrahedron, .hexahedron] 1 c
  | .custom, _ => none

/-- Modelled from the spec: input validation, the first stage of the
orchestrator.  The `custom` family bypasses family strategies and cannot be
built from a (family, cell, degree) specification alone; other families are
checked against the structural-domain and minimum-degree table. -/
def validate (f : ElementFamily) (c : CellType) (d : Int) : Except BasixError Unit :=
  if f = .custom then .error errCustom
  else
    match f.minDegree c with
    | none => .error errUnsupportedCell
    | some m => if d < m then .error errLowDegree else .ok ()

/-- Modelled from the spec: the variant resolver (section 4.4).  Resolution is
permissive: an unused variant is inert, and none of the variant combinations
occurring with the supported families is a genuinely incompatible pair, so
resolution succeeds for every modelled combination. -/
def resolveVariant (_f : ElementFamily) (_lv : LagrangeVariant) (_dv : DPCVariant) :
    Except BasixError Unit :=
  .ok ()

/-- Number of components of the value of a basis function of the family on
the cell: 1 for scalar families, the cell dimension for vector-valued
families, its square for matrix-valued families. -/
def ElementFamily.valueSize (f : ElementFamily) (c : CellType) : Nat :=
  match f with
  | .RT | .BDM | .N1E | .N2E => c.dim
  | .Regge | .HHJ => c.dim * c.dim
  | _ => 1

/-- Dimension of the scalar polynomial space of degree `d` on the cell:
total degree on simplices, tensor-product degree on quadrilaterals and
hexahedra, mixed on prisms and pyramids. -/
def CellType.scalarDim : CellType → Nat → Nat
  | .point, _ => 1
  | .interval, d => d + 1
  | .triangle, d => (d + 1) * (d + 2) / 2
  | .quadrilateral, d => (d + 1) * (d + 1)
  | .tetrahedron, d => (d + 1) * (d + 2) * (d + 3) / 6
  | .hexahedron, d => (d + 1) * (d + 1) * (d + 1)
  | .prism, d => (d + 1) * ((d + 1) * (d + 2) / 2)
  | .pyramid, d => (d + 1) * (d + 2) * (2 * d + 3) / 6

/-- Modelled from the spec: the cardinality of the polynomial basis produced
by the polynomial space generator for the family on the cell at the degree. -/
def spaceDim (f : ElementFamily) (c : CellType) (d : Nat) : Nat :=
  f.valueSize c * c.scalarDim d

/-- Modelled from the spec: the polynomial space generator (section 4.2).
It fails with `InvalidDegreeError` for a negative degree and otherwise
returns the basis, represented by its cardinality. -/
def buildSpace (f : ElementFamily) (c : CellType) (d : Int) : Except BasixError Nat :=
  if d < 0 then .error errNegativeDegree
  else .ok (spaceDim f c d.toNat)

/-- Modelled from the spec: sub-entity placement of the dual functionals
(section 4.3): interior-only for bubble and DPC; vertex evaluations first,
remainder in the interior, for nodal families; facet moments first, remainder
in the interior, for moment families.  The list always has exactly one entry
per polynomial basis function, so the dual system is square. -/
def dualEntities (f : ElementFamily) (c : CellType) (d : Int) (n : Nat) : List SubEntity :=
  match f with
  | .bubble | .DPC | .custom => List.replicate n (cellInterior c)
  | .P | .iso | .Hermite =>
    if d ≤ 0 then List.replicate n (cellInterior c)
    else
      (List.range (min c.numVertices n)).map (fun i => ⟨0, i⟩) ++
        List.replicate (n - min c.numVertices n) (cellInterior c)
  | .RT | .BDM | .N1E | .N2E | .Regge | .HHJ | .CR | .serendipity =>
    (List.range (min c.numFacets n)).map (fun i => ⟨c.dim - 1, i⟩) ++
      List.replicate (n - min c.numFacets n) (cellInterior c)

/-- Modelled from the spec: the dual-functional build stage, producing the
functional-to-sub-entity association for a basis of cardinality `n`. -/
def buildDual (f : ElementFamily) (c : CellType) (d : Int) (n : Nat) :
    Except BasixError (List SubEntity) :=
  .ok (dualEntities f c d n)

/-- The `n`-by-`n` identity matrix over the rationals. -/
def identityMatrixQ (n : Nat) : List (List Rat) :=
  (List.range n).map (fun i => (List.range n).map (fun j => if i = j then 1 else 0))

/-- Modelled from the spec: the dual matrix solver (section 4.5).  It fails
with `SingularDualSystemError` when the system has no unique solution, which
for this model happens exactly when the system is not square; on a square
nonsingular system it returns the change-of-basis coefficient matrix,
represented abstractly by the identity matrix in the orthonormal basis. -/
def solveDual (n : Nat) (ents : List SubEntity) : Except BasixError (List (List Rat)) :=
  if ents.length = n then .ok (identityMatrixQ n)
  else .error errSingular

/-- Modelled from the spec: the element produced by a successful
construction (section 3 data model). -/
structure Element where
  cell : CellType
  family : ElementFamily
  degree : Int
  valueSize : Nat
  polyDim : Nat
  coefficientMatrix : List (List Rat)
  functionalEntities : List SubEntity
  discontinuous : Bool
deriving DecidableEq, Repr

/-- Modelled from the spec: the discontinuous transform (section 4.6):
a pure transform returning a new element with the same polynomial span and
basis cardinality, with every functional's sub-entity association rewritten
to the cell interior. -/
def make_discontinuous (e : Element) : Element :=
  { e with functionalEntities := e.functionalEntities.map (fun _ => cellInterior e.cell) }

/-- Modelled from the spec: the element construction engine (section 4.7):
validate, resolve the variant, build the polynomial space, build the dual
functionals, solve the dual system, assemble, and optionally apply the
discontinuous transform; the first failing stage aborts the construction. -/
def create_element (f : ElementFamily) (c : CellType) (d : Int)
    (lv : LagrangeVariant) (dv : DPCVariant) (disc : Bool) : Except BasixError Element :=
  match validate f c d with
  | .error e => .error e
  | .ok _ =>
    match resolveVariant f lv dv with
    | .error e => .error e
    | .ok _ =>
      match buildSpace f c d with
      | .error e => .error e
      | .ok n =>
        match buildDual f c d n with
        | .error e => .error e
        | .ok ents =>
          match solveDual n ents with
          | .error e => .error e
          | .ok mat =>
            let base : Element :=
              { cell := c, family := f, degree := d, valueSize := f.valueSize c,
                polyDim := n, coefficientMatrix := mat, functionalEntities := ents,
                discontinuous := disc }
            .ok (if disc then make_discontinuous base else base)

/-- The eight canonical cells, in the order of the test file. -/
def cells8 : List CellType :=
  [.point, .interval, .triangle, .quadrilateral, .tetrahedron, .hexahedron, .prism, .pyramid]

/-- The fourteen canonical families, in the order of the test file. -/
def families14 : List ElementFamily :=
  [.P, .RT, .BDM, .N1E, .N2E, .Regge, .HHJ, .bubble, .serendipity, .DPC, .CR, .Hermite,
   .iso, .custom]

/-- The degrees exercised by the cross-product test: `range(-1, 5)`. -/
def degreesTested : List Int :=
  [-1, 0, 1, 2, 3, 4]

/-- The representative variant combinations of the test file, each expanded
to a (LagrangeVariant, DPCVariant) pair with `unset` for an omitted slot. -/
def variantsTested : List (LagrangeVariant × DPCVariant) :=
  [(.gll_isaac, .unset), (.gll_warped, .unset), (.legendre, .unset), (.bernstein, .unset),
   (.unset, .diagonal_gll), (.unset, .legendre), (.legendre, .legendre)]

/-- A construction outcome acceptable to the cross-product smoke test:
either success with the requested degree reported, or a typed error that is
not the numerical/singular class and whose message does not reference the
low-level routine dgesv. -/
def acceptableOutcome (f : ElementFamily) (c : CellType) (d : Int)
    (lv : LagrangeVariant) (dv : DPCVariant) (disc : Bool) : Bool :=
  match create_element f c d lv dv disc with
  | .ok e => e.degree == d
  | .error err => !err.isSingular && !(strOccurs "dgesv" err.message)

/-- The degree reported by a construction outcome: `some` of the element's
degree on success, `none` on failure. -/
def resultDegree (r : Except BasixError Element) : Option Int :=
  match r with
  | .ok e => some e.degree
  | .error _ => none

/-- The element produced by `create_element` for the Lagrange family on a
point cell at degree 0 (used as a concrete instantiation point). -/
def pointElem : Element :=
  { cell := .point, family := .P, degree := 0, valueSize := 1, polyDim := 1,
    coefficientMatrix := [[1]], functionalEntities := [⟨0, 0⟩], discontinuous := false }

/-- Boolean comparison of `CellType` members by their underlying tag. -/
def cellLE (a b : CellType) : Bool :=
  Nat.ble a.toNat b.toNat

/-- Boolean comparison of `ElementFamily` members by their underlying tag. -/
def famLE (a b : ElementFamily) : Bool :=
  Nat.ble a.toNat b.toNat

/-- Modelled from the spec: the attribute listing of the `CellType`
enumeration class as the test file observes it: dunder attributes, the
`name` accessor, and one attribute per member. -/
def cellTypeDir : List String :=
  ["__doc__", "__members__", "name", "point", "interval", "triangle", "quadrilateral",
   "tetrahedron", "hexahedron", "prism", "pyramid"]

/-- Modelled from the spec: the attribute listing of the `ElementFamily`
enumeration class as the test file observes it. -/
def elementFamilyDir : List String :=
  ["__doc__", "__members__", "name", "P", "RT", "BDM", "N1E", "N2E", "Regge", "HHJ",
   "bubble", "serendipity", "DPC", "CR", "Hermite", "iso", "custom"]

/-- The member-name filter of `test_all_cells_included` and
`test_all_elements_included`: keep attributes whose first character is
alphabetic and that are not the `name` accessor. -/
def namedMembers (l : List String) : List String :=
  l.filter (fun s => s.front.isAlpha && (s != "name"))

end Basix

namespace Basix

set_option maxRecDepth 4000

lemma validate_error_cases (f : ElementFamily) (c : CellType) (d : Int) (err : BasixError)
    (h : validate f c d = Except.error err) :
    err = errCustom ∨ err = errUnsupportedCell ∨ err = errLowDegree := by
  unfold validate at h
  split at h
  · exact Or.inl (Except.error.inj h).symm
  · split at h
    · exact Or.inr (Or.inl (Except.error.inj h).symm)
    · split at h
      · exact Or.inr (Or.inr (Except.error.inj h).symm)
      · exact Except.noConfusion h

lemma buildSpace_error_cases (f : ElementFamily) (c : CellType) (d : Int) (err : BasixError)
    (h : buildSpace f c d = Except.error err) : err = errNegativeDegree := by
  unfold buildSpace at h
  split at h
  · exact (Except.error.inj h).symm
  · exact Except.noConfusion h

lemma solveDual_error_cases (n : Nat) (ents : List SubEntity) (err : BasixError)
    (h : solveDual n ents = Except.error err) : err = errSingular := by
  unfold solveDual at h
  split at h
  · exact Except.noConfusion h
  · exact (Except.error.inj h).symm

lemma create_element_error_stage (f : ElementFamily) (c : CellType) (d : Int)
    (lv : LagrangeVariant) (dv : DPCVariant) (disc : Bool) (err : BasixError)
    (h : create_element f c d lv dv disc = Except.error err) :
    validate f c d = Except.error err ∨
    (validate f c d = Except.ok () ∧ resolveVariant f lv dv = Except.error err) ∨
    (validate f c d = Except.ok () ∧ buildSpace f c d = Except.error err) ∨
    (∃ n, buildSpace f c d = Except.ok n ∧ buildDual f c d n = Except.error err) ∨
    (∃ n ents, buildSpace f c d = Except.ok n ∧ buildDual f c d n = Except.ok ents ∧
      solveDual n ents = Except.error err) := by
  unfold create_element at h
  simp only [resolveVariant, buildDual] at h
  cases h1 : validate f c d with
  | error e1 =>
    simp only [h1] at h
    exact Or.inl (congrArg Except.error (Except.error.inj h))
  | ok u =>
    cases u
    simp only [h1] at h
    cases h2 : buildSpace f c d with
    | error e2 =>
      simp only [h2] at h
      exact Or.inr (Or.inr (Or.inl ⟨rfl, congrArg Except.error (Except.error.inj h)⟩))
    | ok n =>
      simp only [h2] at h
      cases h3 : solveDual n (dualEntities f c d n) with
      | error e3 =>
        simp only [h3] at h
        refine Or.inr (Or.inr (Or.inr (Or.inr ⟨n, dualEntities f c d n, rfl, rfl, ?_⟩)))
        rw [h3]
        exact congrArg Except.error (Except.error.inj h)
      | ok mat =>
        simp only [h3] at h
        exact Except.noConfusion h

lemma create_element_error_mem (f : ElementFamily) (c : CellType) (d : Int)
    (lv : LagrangeVariant) (dv : DPCVariant) (disc : Bool) (err : BasixError)
    (h : create_element f c d lv dv disc = Except.error err) :
    err = errCustom ∨ err = errUnsupportedCell ∨ err = errLowDegree ∨
    err = errNegativeDegree ∨ err = errSingular := by
  rcases create_element_error_stage f c d lv dv disc err h with h' | ⟨_, h'⟩ | ⟨_, h'⟩ |
    ⟨n, _, h'⟩ | ⟨n, ents, _, _, h'⟩
  · rcases validate_error_cases f c d err h' with h'' | h'' | h''
    · exact Or.inl h''
    · exact Or.inr (Or.inl h'')
    · exact Or.inr (Or.inr (Or.inl h''))
  · exact Except.noConfusion h'
  · exact Or.inr (Or.inr (Or.inr (Or.inl (buildSpace_error_cases f c d err h'))))
  · exact Except.noConfusion h'
  · exact Or.inr (Or.inr (Or.inr (Or.inr (solveDual_error_cases n ents err h'))))

lemma map_const_of_forall_eq {α : Type} (a : α) :
    ∀ l : List α, (∀ x ∈ l, x = a) → l.map (fun _ => a) = l := by
  intro l h
  induction l with
  | nil => rfl
  | cons x xs ih =>
    have hx := h x (List.mem_cons_self x xs)
    have ihh := ih (fun y hy => h y (List.mem_cons_of_mem x hy))
    rw [List.map_cons, ihh, hx]

/-- Claim C1: for every cell in the 8 canonical cells, every family in the
14 canonical families, every degree in [-1, 4], every variant combination in
the representative set, and both values of the discontinuous flag, the call
either succeeds with the requested degree reported or raises a typed error
that is not a numerical/singular-system failure and whose message never
references the low-level routine dgesv. -/
theorem claim1_cross_product_smoke :
    ∀ c ∈ cells8, ∀ f ∈ families14, ∀ d ∈ degreesTested, ∀ v ∈ variantsTested,
      ∀ b ∈ [false, true], acceptableOutcome f c d v.1 v.2 b = true := by
  decide

theorem claim1_witness :
    acceptableOutcome ElementFamily.P CellType.interval 1 LagrangeVariant.gll_isaac
      DPCVariant.unset false = true :=
  claim1_cross_product_smoke .interval (by decide) .P (by decide) 1 (by decide)
    (.gll_isaac, .unset) (by decide) false (by decide)

/-- Claim C2: whenever `create_element` succeeds, the returned element's
`degree` attribute equals the requested degree, for every input combination. -/
theorem claim2_degree_matches (f : ElementFamily) (c : CellType) (d : Int)
    (lv : LagrangeVariant) (dv : DPCVariant) (disc : Bool) (e : Element)
    (h : create_element f c d lv dv disc = Except.ok e) : e.degree = d := by
  unfold create_element at h
  simp only [resolveVariant, buildDual] at h
  cases h1 : validate f c d with
  | error e1 =>
    simp only [h1] at h
    exact Except.noConfusion h
  | ok u =>
    cases u
    simp only [h1] at h
    cases h2 : buildSpace f c d with
    | error e2 =>
      simp only [h2] at h
      exact Except.noConfusion h
    | ok n =>
      simp only [h2] at h
      cases h3 : solveDual n (dualEntities f c d n) with
      | error e3 =>
        simp only [h3] at h
        exact Except.noConfusion h
      | ok mat =>
        simp only [h3] at h
        have he := Except.ok.inj h
        subst he
        cases disc <;> rfl

theorem claim2_witness : pointElem.degree = 0 :=
  claim2_degree_matches .P .point 0 .gll_isaac .unset false pointElem (by rfl)

/-- Claim C3: the `CellType` enumeration has exactly the eight canonical
members and the `ElementFamily` enumeration has exactly the fourteen
canonical members, with exactly the canonical attribute names, no member
missing and no extra member present. -/
theorem claim3_enumeration_closure :
    (∀ c : CellType, c ∈ cells8) ∧ cells8.Nodup ∧ cells8.length = 8 ∧
    cells8.map CellType.pyName =
      ["point", "interval", "triangle", "quadrilateral", "tetrahedron", "hexahedron",
       "prism", "pyramid"] ∧
    (∀ f : ElementFamily, f ∈ families14) ∧ families14.Nodup ∧ families14.length = 14 ∧
    families14.map ElementFamily.pyName =
      ["P", "RT", "BDM", "N1E", "N2E", "Regge", "HHJ", "bubble", "serendipity", "DPC",
       "CR", "Hermite", "iso", "custom"] := by
  decide

/-- Claim C4: every error surfaced by `create_element` is one value of the
single `BasixError` kind, carries a non-empty human-readable message, and the
message mentions the low-level routine dgesv only if the error is classified
as the numerical (singular-dual-system) failure class. -/
theorem claim4_error_message_quality (f : ElementFamily) (c : CellType) (d : Int)
    (lv : LagrangeVariant) (dv : DPCVariant) (disc : Bool) (err : BasixError)
    (h : create_element f c d lv dv disc = Except.error err) :
    err.message ≠ "" ∧ (strOccurs "dgesv" err.message = true → err.isSingular = true) := by
  rcases create_element_error_mem f c d lv dv disc err h with h' | h' | h' | h' | h' <;>
    subst h' <;> exact ⟨by decide, by decide⟩

theorem claim4_witness :
    errCustom.message ≠ "" ∧
      (strOccurs "dgesv" errCustom.message = true → errCustom.isSingular = true) :=
  claim4_error_message_quality .custom .point 0 .unset .unset false errCustom (by rfl)

/-- Claim C5: when any stage of the construction pipeline fails, the whole
construction aborts with exactly that stage's typed error and no element
(partial or otherwise) is returned: every failing call returns the error of
the first failing stage, all earlier stages having succeeded. -/
theorem claim5_failure_aborts (f : ElementFamily) (c : CellType) (d : Int)
    (lv : LagrangeVariant) (dv : DPCVariant) (disc : Bool) (err : BasixError)
    (h : create_element f c d lv dv disc = Except.error err) :
    (∀ e, create_element f c d lv dv disc ≠ Except.ok e) ∧
    (validate f c d = Except.error err ∨
     (validate f c d = Except.ok () ∧ resolveVariant f lv dv = Except.error err) ∨
     (validate f c d = Except.ok () ∧ buildSpace f c d = Except.error err) ∨
     (∃ n, buildSpace f c d = Except.ok n ∧ buildDual f c d n = Except.error err) ∨
     (∃ n ents, buildSpace f c d = Except.ok n ∧ buildDual f c d n = Except.ok ents ∧
       solveDual n ents = Except.error err)) :=
  ⟨fun _ he => Except.noConfusion (h.symm.trans he),
   create_element_error_stage f c d lv dv disc err h⟩

theorem claim5_witness :
    create_element .custom .point 0 .unset .unset false ≠ Except.ok pointElem :=
  (claim5_failure_aborts .custom .point 0 .unset .unset false errCustom (by rfl)).1 pointElem

/-- Claim C6: `create_element` is deterministic: two successful constructions
with identical inputs return identical coefficient matrices and identical
elements. -/
theorem claim6_deterministic (f : ElementFamily) (c : CellType) (d : Int)
    (lv : LagrangeVariant) (dv : DPCVariant) (disc : Bool) (e₁ e₂ : Element)
    (h₁ : create_element f c d lv dv disc = Except.ok e₁)
    (h₂ : create_element f c d lv dv disc = Except.ok e₂) :
    e₁.coefficientMatrix = e₂.coefficientMatrix ∧ e₁ = e₂ := by
  have h := Except.ok.inj (h₁.symm.trans h₂)
  exact ⟨congrArg Element.coefficientMatrix h, h⟩

theorem claim6_witness :
    pointElem.coefficientMatrix = pointElem.coefficientMatrix ∧ pointElem = pointElem :=
  claim6_deterministic .P .point 0 .gll_isaac .unset false pointElem pointElem
    (by rfl) (by rfl)

/-- Claim C7: the discontinuous transform is idempotent: applying
`make_discontinuous` twice yields the same element, and in particular the
same functional-to-sub-entity mapping, as applying it once. -/
theorem claim7_discontinuous_idempotent (e : Element) :
    make_discontinuous (make_discontinuous e) = make_discontinuous e := by
  obtain ⟨cl, fam, deg, vs, pd, mat, ents, dc⟩ := e
  simp [make_discontinuous, List.map_map, Function.comp]

/-- Claim C8: constructing a Lagrange (P-family) element on a hexahedron at
degree 7 with the gll_isaac variant succeeds and the element reports
degree 7. -/
theorem claim8_high_degree_hex :
    resultDegree (create_element .P .hexahedron 7 .gll_isaac .unset false) = some 7 := by
  decide

/-- Claim C9: `make_discontinuous` returns a new element with identical
polynomial span (same cell, family, degree, value size, basis coefficients),
identical basis cardinality and functional count, every functional's
sub-entity association rewritten to the cell interior; it is pure, and on an
element whose functionals already all sit on the cell interior (e.g., an
element on a point cell) it is a no-op. -/
theorem claim9_discontinuous_shape (e : Element) :
    (make_discontinuous e).polyDim = e.polyDim ∧
    (make_discontinuous e).functionalEntities.length = e.functionalEntities.length ∧
    (∀ s ∈ (make_discontinuous e).functionalEntities, s = cellInterior e.cell) ∧
    (make_discontinuous e).coefficientMatrix = e.coefficientMatrix ∧
    (make_discontinuous e).cell = e.cell ∧
    (make_discontinuous e).family = e.family ∧
    (make_discontinuous e).degree = e.degree ∧
    (make_discontinuous e).valueSize = e.valueSize ∧
    ((∀ s ∈ e.functionalEntities, s = cellInterior e.cell) → make_discontinuous e = e) := by
  obtain ⟨cl, fam, deg, vs, pd, mat, ents, dc⟩ := e
  refine ⟨rfl, by simp [make_discontinuous], ?_, rfl, rfl, rfl, rfl, rfl, ?_⟩
  · intro s hs
    simp only [make_discontinuous, List.mem_map] at hs
    obtain ⟨a, -, ha⟩ := hs
    exact ha.symm
  · intro hall
    simp only [make_discontinuous]
    rw [map_const_of_forall_eq _ ents hall]

theorem claim9_witness : make_discontinuous pointElem = pointElem := by
  have h := claim9_discontinuous_shape pointElem
  exact h.2.2.2.2.2.2.2.2 (by decide)

/-- Claim C10: members of `CellType` and `ElementFamily` support total-order
comparison (the comparison is transitive, total and antisymmetric, any list
of members can be sorted, and any two sorted arrangements of the same
members coincide), and the `name` attribute is not itself a member and is
excluded when the named members are enumerated. -/
theorem claim10_order_and_name :
    (∀ a b c : CellType, cellLE a b = true → cellLE b c = true → cellLE a c = true) ∧
    (∀ a b : CellType, cellLE a b = true ∨ cellLE b a = true) ∧
    (∀ a b : CellType, cellLE a b = true → cellLE b a = true → a = b) ∧
    (∀ l₁ l₂ : List CellType, l₁.Perm l₂ → l₁.Sorted (fun a b => cellLE a b = true) →
      l₂.Sorted (fun a b => cellLE a b = true) → l₁ = l₂) ∧
    (∀ l : List CellType, (l.mergeSort cellLE).Perm l ∧
      (l.mergeSort cellLE).Sorted (fun a b => cellLE a b = true)) ∧
    (∀ a b c : ElementFamily, famLE a b = true → famLE b c = true → famLE a c = true) ∧
    (∀ a b : ElementFamily, famLE a b = true ∨ famLE b a = true) ∧
    (∀ a b : ElementFamily, famLE a b = true → famLE b a = true → a = b) ∧
    (∀ l₁ l₂ : List ElementFamily, l₁.Perm l₂ → l₁.Sorted (fun a b => famLE a b = true) →
      l₂.Sorted (fun a b => famLE a b = true) → l₁ = l₂) ∧
    (∀ l : List ElementFamily, (l.mergeSort famLE).Perm l ∧
      (l.mergeSort famLE).Sorted (fun a b => famLE a b = true)) ∧
    namedMembers cellTypeDir = cells8.map CellType.pyName ∧
    "name" ∉ cells8.map CellType.pyName ∧
    namedMembers elementFamilyDir = families14.map ElementFamily.pyName ∧
    "name" ∉ families14.map ElementFamily.pyName := by
  have cta : ∀ a b : CellType, cellLE a b = true → cellLE b a = true → a = b := by decide
  have fta : ∀ a b : ElementFamily, famLE a b = true → famLE b a = true → a = b := by decide
  haveI ic : IsAntisymm CellType (fun a b => cellLE a b = true) := ⟨cta⟩
  haveI ifam : IsAntisymm ElementFamily (fun a b => famLE a b = true) := ⟨fta⟩
  refine ⟨by decide, by decide, cta, ?_, ?_, by decide, by decide, fta, ?_, ?_,
    by decide, by decide, by decide, by decide⟩
  · intro l₁ l₂ hp hs₁ hs₂
    exact List.eq_of_perm_of_sorted hp hs₁ hs₂
  · intro l
    exact ⟨List.mergeSort_perm l cellLE, List.sorted_mergeSort (by decide) (by decide) l⟩
  · intro l₁ l₂ hp hs₁ hs₂
    exact List.eq_of_perm_of_sorted hp hs₁ hs₂
  · intro l
    exact ⟨List.mergeSort_perm l famLE, List.sorted_mergeSort (by decide) (by decide) l⟩

theorem claim10_witness :
    ([CellType.point, CellType.interval] : List CellType) =
      [CellType.point, CellType.interval] := by
  have h := claim10_order_and_name
  exact h.2.2.2.1 _ _ (List.Perm.refl _) (by decide) (by decide)

end Basix
